import Mathlib

/-!
# fwdev: the Windows UART port driver (`source/port/win/port_uart.c`)

A shallow embedding of the UART port adapter.  The driver keeps a table
`uart_devices` of `MAX_UART_PORTS` pointers to heap-allocated device records
and forwards all I/O to libserialport.

* Pointers of type `hal_uart_dev_t` are `Option Nat`: `none` is `NULL`, `some a`
  is the address `a` of a cell of the heap.  A freed cell is `none`; reading
  through a pointer whose cell is not live is undefined behaviour of the C
  program and makes the embedded function return `none`.
* `port_uart_open` is declared `static void`: the embedded function gives the state
  after the call, `port_uart_open_body` also gives the operand of the `return`
  statement reached, and a caller through the `open` member of the driver table
  finds an indeterminate value.
* libserialport and the allocator are external.  Every call into libserialport
  is appended to a log, and the value a call returns is given by an `Env`,
  a function of the calls made before it.  Nothing is assumed of the answers of
  an `Env`; its table dimension fits the `uint32_t` loop index.
* `hal.h` is not part of the sources: its enumerations and the dimension
  `HAL_UART_NUM_PORTS` are modelled below.
-/

namespace PortUart

/-! ## Types of `hal.h` -/

/-- Modelled from the spec: `hal_uart_baud_rate_t` of the missing `hal.h`; the five
enumerators that `baudrate_to_int` names, and `other` for every further value a C
enumeration object can hold. -/
inductive hal_uart_baud_rate_t where
  | HAL_UART_BAUD_RATE_9600
  | HAL_UART_BAUD_RATE_19200
  | HAL_UART_BAUD_RATE_38400
  | HAL_UART_BAUD_RATE_57600
  | HAL_UART_BAUD_RATE_115200
  | other (raw : Nat)
  deriving DecidableEq, Repr

/-- Modelled from the spec: `hal_uart_stop_bits_t` of the missing `hal.h` (stop bits 1 or 2);
`other` stands for every further value. -/
inductive hal_uart_stop_bits_t where
  | HAL_UART_STOP_BITS_1
  | HAL_UART_STOP_BITS_2
  | other (raw : Nat)
  deriving DecidableEq, Repr

/-- Modelled from the spec: `hal_uart_parity_t` of the missing `hal.h` (none, odd, even);
`other` stands for every further value. -/
inductive hal_uart_parity_t where
  | HAL_UART_PARITY_NONE
  | HAL_UART_PARITY_ODD
  | HAL_UART_PARITY_EVEN
  | other (raw : Nat)
  deriving DecidableEq, Repr

/-- Modelled from the spec: `hal_uart_config_t` of the missing `hal.h`, with the three
fields that `port_uart_open` reads. -/
structure hal_uart_config_t where
  baud_rate : hal_uart_baud_rate_t
  stop_bits : hal_uart_stop_bits_t
  parity : hal_uart_parity_t
  deriving DecidableEq, Repr

/-! ## libserialport -/

/-- The values of `enum sp_parity` that the driver passes. -/
inductive sp_parity where
  | SP_PARITY_NONE
  | SP_PARITY_ODD
  | SP_PARITY_EVEN
  deriving DecidableEq, Repr

/-- A call into libserialport, with its arguments.  A `struct sp_port*` is a number;
the bytes of a buffer handed to `sp_blocking_write` are part of the call. -/
inductive SpCall where
  | sp_get_port_by_name (name : Option String)
  | sp_open_read_write (port : Nat)
  | sp_set_baudrate (port : Nat) (baud : Nat)
  | sp_set_bits (port : Nat) (bits : Nat)
  | sp_set_stopbits (port : Nat) (stopbits : Nat)
  | sp_set_parity (port : Nat) (parity : sp_parity)
  | sp_set_flowcontrol_none (port : Nat)
  | sp_close (port : Nat)
  | sp_free_port (port : Nat)
  | sp_input_waiting (port : Nat)
  | sp_blocking_read (port : Nat) (count : Nat) (timeout_ms : Nat)
  | sp_blocking_write (port : Nat) (data : List Nat) (count : Nat) (timeout_ms : Nat)
  | sp_flush_both (port : Nat)
  deriving DecidableEq, Repr

/-! ## The device record and the program state -/

/-- The record `struct hal_uart_dev_s`.  The field `interrupt_handler` is never written
nor read by this file and is left out.  `port_name` is `none` when `strdup` returned
`NULL`. -/
structure hal_uart_dev_s where
  port : Nat
  port_name : Option String
  is_open : Bool
  config : hal_uart_config_t
  id : Nat
  deriving DecidableEq, Repr

/-- The state: the heap of device records (by address, `none` once freed), the static
table `uart_devices`, and the log of libserialport calls, oldest first. -/
structure State where
  heap : List (Option hal_uart_dev_s)
  uart_devices : List (Option Nat)
  log : List SpCall
  deriving DecidableEq, Repr

/-- The external world of the driver: the dimension of the device table, the allocator
and the answers of libserialport.  An answer depends on the calls made so far (the log)
and on the arguments of the call.

* `malloc_ok heap_cells` / `strdup_ok heap_cells`: whether the allocation made when the
  heap has `heap_cells` cells succeeds;
* `sp_get_port_by_name log name`: `some port` for `SP_OK`, `none` for any other result;
* `sp_open log port`: `true` for `SP_OK`;
* `sp_input_waiting`, `sp_blocking_read`, `sp_blocking_write`: the `int` returned
  (negative for an error); `sp_blocking_read` also gives the bytes it stores;
* `indeterminate s`: the value that a caller finds in place of a result after calling a
  function that delivers none, when the call left the state `s`. -/
structure Env where
  HAL_UART_NUM_PORTS : Nat
  num_ports_lt : HAL_UART_NUM_PORTS < 2 ^ 32
  malloc_ok : Nat → Bool
  strdup_ok : Nat → Bool
  sp_get_port_by_name : List SpCall → Option String → Option Nat
  sp_open : List SpCall → Nat → Bool
  sp_input_waiting : List SpCall → Nat → Int
  sp_blocking_read : List SpCall → Nat → Nat → Nat → Int × List Nat
  sp_blocking_write : List SpCall → Nat → List Nat → Nat → Nat → Int
  indeterminate : State → Option Nat

/-- The macro `MAX_UART_PORTS`. -/
def MAX_UART_PORTS (E : Env) : Nat := E.HAL_UART_NUM_PORTS

/-- The state at process start: `uart_devices` is statically initialised to `NULL`s. -/
def State.start (E : Env) : State :=
  { heap := [], uart_devices := List.replicate (MAX_UART_PORTS E) none, log := [] }

/-- Read the record a non-null pointer points to; `none` when the cell is not live. -/
def State.deref (s : State) (a : Nat) : Option hal_uart_dev_s :=
  (s.heap.get? a).join

/-- Overwrite the record at address `a`. -/
def State.store (s : State) (a : Nat) (d : hal_uart_dev_s) : State :=
  { s with heap := s.heap.set a (some d) }

/-- Release the cell at address `a` (`free`). -/
def State.free (s : State) (a : Nat) : State :=
  { s with heap := s.heap.set a none }

/-- Append a libserialport call to the log. -/
def State.call (s : State) (c : SpCall) : State :=
  { s with log := s.log ++ [c] }

/-! ## The functions of `port_uart.c` -/

/-- The function `baudrate_to_int`. -/
def baudrate_to_int (baud : hal_uart_baud_rate_t) : Nat :=
  match baud with
  | .HAL_UART_BAUD_RATE_9600 => 9600
  | .HAL_UART_BAUD_RATE_19200 => 19200
  | .HAL_UART_BAUD_RATE_38400 => 38400
  | .HAL_UART_BAUD_RATE_57600 => 57600
  | .HAL_UART_BAUD_RATE_115200 => 115200
  | _ => 9600

/-- The loop body of `port_uart_init`: `uart_devices[i] = NULL`. -/
def port_uart_init_step (s : State) (i : Nat) : State :=
  { s with uart_devices := s.uart_devices.set i none }

/-- The function `port_uart_init`: the loop over `i = 0 .. MAX_UART_PORTS - 1`. -/
def port_uart_init (E : Env) (s : State) : State :=
  (List.range (MAX_UART_PORTS E)).foldl port_uart_init_step s

/-- The call `snprintf(name, sizeof(name), "COM%u", dev + 1)` with `char name[16]`:
the unsigned 32-bit value in decimal after `COM`, cut to 15 characters. -/
def snprintf_name (dev : Nat) : String :=
  ⟨("COM".data ++ (Nat.repr ((dev + 1) % 2 ^ 32)).data).take 15⟩

/-- The stop-bit argument `cfg->stop_bits == HAL_UART_STOP_BITS_2 ? 2 : 1`. -/
def stopbits_of (sb : hal_uart_stop_bits_t) : Nat :=
  if sb = .HAL_UART_STOP_BITS_2 then 2 else 1

/-- The parity chosen by the `if`/`else if` of `port_uart_open`. -/
def parity_of (p : hal_uart_parity_t) : sp_parity :=
  if p = .HAL_UART_PARITY_ODD then .SP_PARITY_ODD
  else if p = .HAL_UART_PARITY_EVEN then .SP_PARITY_EVEN
  else .SP_PARITY_NONE

/-- The value of `uart->port_name` in `port_uart_open`: `strdup(name)`, which is `NULL`
when the allocation fails. -/
def open_name (E : Env) (s : State) (dev : Nat) : Option String :=
  if E.strdup_ok s.heap.length then some (snprintf_name dev) else none

/-- The statements of `port_uart_open`: the state after the call and the operand of the
`return` statement at which the call ends (`none` is `NULL`).  `cfg` is `none` for a null
pointer.  `malloc` gives the first unused address; the field `port` of the new record is
indeterminate (written `0`) until `sp_get_port_by_name` stores into it. -/
def port_uart_open_body (E : Env) (s : State) (dev : Nat)
    (cfg : Option hal_uart_config_t) : State × Option Nat :=
  match cfg with
  | none => (s, none)
  | some c =>
    if dev ≥ MAX_UART_PORTS E then (s, none)
    else if !E.malloc_ok s.heap.length then (s, none)
    else
      let uart := s.heap.length
      let port_name := open_name E s dev
      let d0 : hal_uart_dev_s :=
        { port := 0, port_name := port_name, is_open := false, config := c, id := dev }
      let s0 : State := { s with heap := s.heap ++ [some d0] }
      let s1 := s0.call (.sp_get_port_by_name port_name)
      match E.sp_get_port_by_name s0.log port_name with
      | none => (s1.free uart, none)
      | some port =>
        let d1 : hal_uart_dev_s := { d0 with port := port }
        let s2 := (s1.store uart d1).call (.sp_open_read_write port)
        if !E.sp_open s1.log port then
          ((s2.call (.sp_free_port port)).free uart, none)
        else
          let s3 := s2.call (.sp_set_baudrate port (baudrate_to_int c.baud_rate))
          let s4 := s3.call (.sp_set_bits port 8)
          let s5 := s4.call (.sp_set_stopbits port (stopbits_of c.stop_bits))
          let s6 := s5.call (.sp_set_parity port (parity_of c.parity))
          let s7 := s6.call (.sp_set_flowcontrol_none port)
          let s8 := s7.store uart { d1 with is_open := true }
          ({ s8 with uart_devices := s8.uart_devices.set dev (some uart) }, some uart)

/-- The function `port_uart_open`.  The source declares it `static void`, so the operand
of a `return` statement is not delivered: a call has its effect on the state and no
result. -/
def port_uart_open (E : Env) (s : State) (dev : Nat) (cfg : Option hal_uart_config_t) :
    State :=
  (port_uart_open_body E s dev cfg).1

/-- The function `port_uart_close`; `none` is undefined behaviour (dangling pointer). -/
def port_uart_close (_E : Env) (s : State) (dev : Option Nat) : Option State :=
  match dev with
  | none => some s
  | some a =>
    match s.deref a with
    | none => none
    | some d =>
      if !d.is_open then some s
      else
        let s1 := s.call (.sp_close d.port)
        let s2 := s1.call (.sp_free_port d.port)
        some (s2.store a { d with is_open := false })

/-- Modelled from the spec: `hal_uart_close` is the entry point of the upper HAL layer
(declared in the missing `hal.h`); it calls the `close` member of `HAL_UART_DRIVER`,
which is `port_uart_close`. -/
def hal_uart_close (E : Env) (s : State) (dev : Option Nat) : Option State :=
  port_uart_close E s dev

/-- The loop body of `port_uart_deinit` for index `i`; `none` is undefined behaviour
(a slot pointing to a cell that is not live). -/
def port_uart_deinit_step (E : Env) (s : State) (i : Nat) : Option State :=
  match s.uart_devices.getD i none with
  | none => some s
  | some a =>
    match hal_uart_close E s (some a) with
    | none => none
    | some s1 =>
      match s1.deref a with
      | none => none
      | some _ => some { s1.free a with uart_devices := (s1.free a).uart_devices.set i none }

/-- The function `port_uart_deinit`: the loop over `i = 0 .. MAX_UART_PORTS - 1`. -/
def port_uart_deinit (E : Env) (s : State) : Option State :=
  (List.range (MAX_UART_PORTS E)).foldlM (port_uart_deinit_step E) s

/-- The conversion `(size_t)` of an `int`, for a 64-bit `size_t`. -/
def size_t_of_int (r : Int) : Nat := (r % 2 ^ 64).toNat

/-- The function `port_uart_bytes_available`: the new state and the value returned. -/
def port_uart_bytes_available (E : Env) (s : State) (dev : Option Nat) :
    Option (State × Nat) :=
  match dev with
  | none => some (s, 0)
  | some a =>
    match s.deref a with
    | none => none
    | some d =>
      if !d.is_open then some (s, 0)
      else
        some (s.call (.sp_input_waiting d.port), size_t_of_int (E.sp_input_waiting s.log d.port))

/-- The function `port_uart_read`: the new state, the value returned and the contents of
the caller's buffer afterwards (`buffer` is `none` for a null pointer).  The bytes that
libserialport delivers are stored from the start of the buffer. -/
def port_uart_read (E : Env) (s : State) (dev : Option Nat) (buffer : Option (List Nat))
    (size : Nat) : Option (State × Int × Option (List Nat)) :=
  match dev with
  | none => some (s, -1, buffer)
  | some a =>
    match s.deref a with
    | none => none
    | some d =>
      if !d.is_open then some (s, -1, buffer)
      else
        match buffer with
        | none => some (s, -1, none)
        | some buf =>
          let r := (E.sp_blocking_read s.log d.port size 1000).1
          let bytes := (E.sp_blocking_read s.log d.port size 1000).2
          some (s.call (.sp_blocking_read d.port size 1000),
                if r ≥ 0 then r else -1,
                some (bytes ++ buf.drop bytes.length))

/-- The function `port_uart_write`: the new state and the value returned. -/
def port_uart_write (E : Env) (s : State) (dev : Option Nat) (buffer : Option (List Nat))
    (size : Nat) : Option (State × Int) :=
  match dev with
  | none => some (s, -1)
  | some a =>
    match s.deref a with
    | none => none
    | some d =>
      if !d.is_open then some (s, -1)
      else
        match buffer with
        | none => some (s, -1)
        | some buf =>
          let r := E.sp_blocking_write s.log d.port buf size 1000
          some (s.call (.sp_blocking_write d.port buf size 1000), if r ≥ 0 then r else -1)

/-- The function `port_uart_flush`. -/
def port_uart_flush (_E : Env) (s : State) (dev : Option Nat) : Option State :=
  match dev with
  | none => some s
  | some a =>
    match s.deref a with
    | none => none
    | some d =>
      if !d.is_open then some s
      else some (s.call (.sp_flush_both d.port))

/-- Modelled from the spec: `hal_uart_driver_t` of the missing `hal.h`, the table of the
eight driver entry points that `HAL_UART_DRIVER` initialises. -/
structure hal_uart_driver_t where
  init : State → State
  deinit : State → Option State
  open_ : State → Nat → Option hal_uart_config_t → State × Option Nat
  close : State → Option Nat → Option State
  bytes_available : State → Option Nat → Option (State × Nat)
  read : State → Option Nat → Option (List Nat) → Nat → Option (State × Int × Option (List Nat))
  write : State → Option Nat → Option (List Nat) → Nat → Option (State × Int)
  flush : State → Option Nat → Option State

/-- The driver table `HAL_UART_DRIVER`.  Its `open` member has the type of a function
that returns a device pointer and is initialised with the `void` function
`port_uart_open`: a caller through the member finds an indeterminate value in place of
the result. -/
def HAL_UART_DRIVER (E : Env) : hal_uart_driver_t :=
  { init := port_uart_init E
    deinit := port_uart_deinit E
    open_ := fun s dev cfg =>
      (port_uart_open E s dev cfg, E.indeterminate (port_uart_open E s dev cfg))
    close := port_uart_close E
    bytes_available := port_uart_bytes_available E
    read := port_uart_read E
    write := port_uart_write E
    flush := port_uart_flush E }

/-- Modelled from the spec: `hal_uart_read` is the entry point of the upper HAL layer
(declared in the missing `hal.h`); it calls the `read` member of `HAL_UART_DRIVER`. -/
def hal_uart_read (E : Env) (s : State) (dev : Option Nat) (buffer : Option (List Nat))
    (size : Nat) : Option (State × Int × Option (List Nat)) :=
  (HAL_UART_DRIVER E).read s dev buffer size

/-- Modelled from the spec: `hal_uart_write` is the entry point of the upper HAL layer
(declared in the missing `hal.h`); it calls the `write` member of `HAL_UART_DRIVER`. -/
def hal_uart_write (E : Env) (s : State) (dev : Option Nat) (buffer : Option (List Nat))
    (size : Nat) : Option (State × Int) :=
  (HAL_UART_DRIVER E).write s dev buffer size

/-- The function `hal_uart_byte_read`; `c` is the byte `*c` (`none` for a null pointer),
as a buffer of one byte. -/
def hal_uart_byte_read (E : Env) (s : State) (dev : Option Nat) (c : Option (List Nat)) :
    Option (State × Int × Option (List Nat)) :=
  hal_uart_read E s dev c 1

/-- The function `hal_uart_byte_write`: the buffer is the address of the parameter `c`. -/
def hal_uart_byte_write (E : Env) (s : State) (dev : Option Nat) (c : Nat) :
    Option (State × Int) :=
  hal_uart_write E s dev (some [c]) 1

/-! ## Sample environments -/

/-- An environment with three ports where every allocation and every libserialport call
succeeds: names resolve to port number 7, reads deliver nothing (a timeout), writes
accept everything. -/
def env_ok : Env :=
  { HAL_UART_NUM_PORTS := 3
    num_ports_lt := by decide
    malloc_ok := fun _ => true
    strdup_ok := fun _ => true
    sp_get_port_by_name := fun _ _ => some 7
    sp_open := fun _ _ => true
    sp_input_waiting := fun _ _ => 0
    sp_blocking_read := fun _ _ _ _ => (0, [])
    sp_blocking_write := fun _ _ _ count _ => (count : Int)
    indeterminate := fun _ => none }

/-- As `env_ok`, but no port name resolves. -/
def env_no_port : Env := { env_ok with sp_get_port_by_name := fun _ _ => none }

/-- As `env_ok`, but `sp_open` fails. -/
def env_busy : Env := { env_ok with sp_open := fun _ _ => false }

/-- The configuration 115200 baud, one stop bit, no parity. -/
def cfg_115200 : hal_uart_config_t :=
  { baud_rate := .HAL_UART_BAUD_RATE_115200, stop_bits := .HAL_UART_STOP_BITS_1,
    parity := .HAL_UART_PARITY_NONE }

/-- A device pointer a caller may pass: `NULL`, or the address of a live record. -/
def State.valid (s : State) (dev : Option Nat) : Prop :=
  match dev with
  | none => True
  | some a => (s.deref a).isSome = true

instance (s : State) (dev : Option Nat) : Decidable (s.valid dev) := by
  unfold State.valid
  cases dev <;> infer_instance

/-- The state after port 0 was opened with `cfg_115200` at process start. -/
def state_port0_open (E : Env) : State :=
  (port_uart_open E (State.start E) 0 (some cfg_115200))

/-- The record of port 0 in `state_port0_open` for the sample environments. -/
def dev_port0 : hal_uart_dev_s :=
  { port := 7, port_name := some "COM1", is_open := true, config := cfg_115200, id := 0 }

/-- As `env_ok`, but a caller that expects a result from a function delivering none
finds the non-null value 3. -/
def env_stale : Env := { env_ok with indeterminate := fun _ => some 3 }

/-- As `env_ok`, but `sp_blocking_read` and `sp_blocking_write` report the error -2. -/
def env_io_error : Env :=
  { env_ok with
    sp_blocking_read := fun _ _ _ _ => (-2, [])
    sp_blocking_write := fun _ _ _ _ _ => -2 }

/-- The state of `env_ok` after ports 0 and 1 were opened and the device of port 1 was
closed: slot 0 holds an open record, slot 1 a closed record, slot 2 is null. -/
def state_mixed : State :=
  ((port_uart_close env_ok
      (port_uart_open env_ok (state_port0_open env_ok) 1 (some cfg_115200))
      (some 1)).getD (State.start env_ok))

/-- The state of `env_ok` after port 0 was opened twice. -/
def state_port0_twice : State :=
  (port_uart_open env_ok (state_port0_open env_ok) 0 (some cfg_115200))

/-- The bytes queued in a loopback after one more call: a write appends the bytes it was
given, a read removes the bytes it returns, a flush discards everything. -/
def loopback_step (queue : List Nat) (c : SpCall) : List Nat :=
  match c with
  | .sp_blocking_write _ data count _ => queue ++ data.take count
  | .sp_blocking_read _ count _ => queue.drop count
  | .sp_flush_both _ => []
  | _ => queue

/-- The bytes queued in a loopback after the calls of a log. -/
def loopback_pending (log : List SpCall) : List Nat :=
  log.foldl loopback_step []

/-- The environment `E` with a loopback in place of the serial line: every byte written
is queued and later reads return the queued bytes in the order written. -/
def loopback (E : Env) : Env :=
  { E with
    sp_input_waiting := fun log _ => ((loopback_pending log).length : Int)
    sp_blocking_read := fun log _ count _ =>
      ((((loopback_pending log).take count).length : Int), (loopback_pending log).take count)
    sp_blocking_write := fun _ _ data count _ => ((data.take count).length : Int) }

/-- A well-formed state: `uart_devices` has `MAX_UART_PORTS` slots, every non-null slot
points to a live record, and no two slots hold the same pointer. -/
def State.wf (E : Env) (s : State) : Prop :=
  s.uart_devices.length = MAX_UART_PORTS E ∧
  (∀ i a, s.uart_devices.get? i = some (some a) → (s.deref a).isSome = true) ∧
  (∀ i j a, s.uart_devices.get? i = some (some a) → s.uart_devices.get? j = some (some a) →
    i = j)

/-- The states the driver can be in: process start followed by `port_uart_init`, then any
calls of `port_uart_open`, `port_uart_close` and `port_uart_deinit` that return. -/
inductive Reachable (E : Env) : State → Prop where
  | start : Reachable E (port_uart_init E (State.start E))
  | step_open (s : State) (dev : Nat) (cfg : Option hal_uart_config_t) :
      Reachable E s → Reachable E (port_uart_open E s dev cfg)
  | step_close (s s1 : State) (dev : Option Nat) :
      Reachable E s → port_uart_close E s dev = some s1 → Reachable E s1
  | step_deinit (s s1 : State) :
      Reachable E s → port_uart_deinit E s = some s1 → Reachable E s1

/-- Every occupied slot `i` of `uart_devices` points to a live record whose `id` is `i`. -/
def State.slots_match (s : State) : Prop :=
  ∀ i a, s.uart_devices.get? i = some (some a) → ∃ d, s.deref a = some d ∧ d.id = i

/-! ## Basic facts -/

theorem deref_call (s : State) (c : SpCall) (a : Nat) : (s.call c).deref a = s.deref a := rfl

theorem snprintf_name_eq (dev : Nat) (h : dev + 1 < 2 ^ 32) :
    snprintf_name dev = "COM" ++ toString (dev + 1) := by
  have hlen : (Nat.repr (dev + 1)).length ≤ 10 :=
    Nat.repr_length (dev + 1) 10 (by decide) (lt_of_lt_of_le h (by norm_num))
  unfold snprintf_name
  rw [Nat.mod_eq_of_lt h, List.take_of_length_le]
  · rfl
  · have : (Nat.repr (dev + 1)).data.length ≤ 10 := hlen
    have h3 : "COM".data.length = 3 := by decide
    rw [List.length_append, h3]
    omega

theorem set_length_append {α : Type} (l : List α) (x y : α) :
    (l ++ [x]).set l.length y = l ++ [y] := by
  induction l with
  | nil => rfl
  | cons a l ih => simp [ih]

theorem join_get_append_of_some {α : Type} (l : List (Option α)) (x : Option α) (b : Nat)
    (d : α) (h : (l.get? b).join = some d) : ((l ++ [x]).get? b).join = some d := by
  have hb : b < l.length := by
    by_contra hb
    rw [List.get?_eq_none.mpr (Nat.le_of_not_lt hb)] at h
    simp at h
  rw [List.get?_eq_getElem?, List.getElem?_append_left hb, ← List.get?_eq_getElem?]
  exact h

theorem deref_store_same (s : State) (a : Nat) (d d1 : hal_uart_dev_s)
    (h : s.deref a = some d) : (s.store a d1).deref a = some d1 := by
  have ha : a < s.heap.length := by
    by_contra ha
    unfold State.deref at h
    rw [List.get?_eq_none.mpr (Nat.le_of_not_lt ha)] at h
    simp at h
  simp [State.deref, State.store, ha]

theorem deref_store_other (s : State) (a b : Nat) (d1 : hal_uart_dev_s) (h : b ≠ a) :
    (s.store a d1).deref b = s.deref b := by
  have h2 : a ≠ b := fun e => h e.symm
  simp [State.deref, State.store, List.getElem?_set_ne h2]

theorem port_uart_close_closed (E : Env) (s : State) (a : Nat) (d : hal_uart_dev_s)
    (h : s.deref a = some d) (hc : d.is_open = false) :
    port_uart_close E s (some a) = some s := by
  simp [port_uart_close, h, hc]

theorem port_uart_close_open (E : Env) (s : State) (a : Nat) (d : hal_uart_dev_s)
    (h : s.deref a = some d) (ho : d.is_open = true) :
    port_uart_close E s (some a) =
      some (((s.call (.sp_close d.port)).call (.sp_free_port d.port)).store a
        { d with is_open := false }) := by
  simp [port_uart_close, h, ho]

/-- After `port_uart_close` on a live record, the record is live and not open. -/
theorem port_uart_close_result (E : Env) (s : State) (a : Nat) (d : hal_uart_dev_s)
    (h : s.deref a = some d) :
    ∃ s1, port_uart_close E s (some a) = some s1 ∧
      s1.deref a = some { d with is_open := false } := by
  cases ho : d.is_open with
  | false =>
    refine ⟨s, port_uart_close_closed E s a d h ho, ?_⟩
    rw [h, ← ho]
  | true =>
    refine ⟨_, port_uart_close_open E s a d h ho, ?_⟩
    exact deref_store_same _ a d _ (by simpa [deref_call] using h)

theorem set_replicate_drop {α : Type} (l : List α) (n : Nat) (x : α) (hn : n < l.length) :
    (List.replicate n x ++ l.drop n).set n x = List.replicate (n + 1) x ++ l.drop (n + 1) := by
  induction n generalizing l with
  | zero =>
    cases l with
    | nil => simp at hn
    | cons a l => simp
  | succ n ih =>
    cases l with
    | nil => simp at hn
    | cons a l =>
      have := ih l (by simpa using hn)
      simp [List.replicate_succ] at this ⊢
      exact this

/-- The first `n` rounds of the loop of `port_uart_init` clear the first `n` slots. -/
theorem port_uart_init_loop (s : State) (n : Nat) (hn : n ≤ s.uart_devices.length) :
    (List.range n).foldl port_uart_init_step s =
      { s with uart_devices := List.replicate n none ++ s.uart_devices.drop n } := by
  induction n with
  | zero => simp
  | succ n ih =>
    rw [List.range_succ, List.foldl_append, ih (Nat.le_of_succ_le hn)]
    simp only [List.foldl_cons, List.foldl_nil, port_uart_init_step]
    rw [set_replicate_drop _ _ _ hn]

theorem port_uart_init_eq (E : Env) (s : State)
    (h : s.uart_devices.length = MAX_UART_PORTS E) :
    port_uart_init E s = { s with uart_devices := List.replicate (MAX_UART_PORTS E) none } := by
  unfold port_uart_init
  rw [port_uart_init_loop s _ (le_of_eq h.symm), ← h]
  simp

theorem deref_free_same (s : State) (a : Nat) : (s.free a).deref a = none := by
  unfold State.deref State.free
  by_cases ha : a < s.heap.length
  · simp [ha]
  · rw [List.get?_eq_none.mpr (by simpa using ha)]
    rfl

theorem deref_free_other (s : State) (a b : Nat) (h : b ≠ a) :
    (s.free a).deref b = s.deref b := by
  have h2 : a ≠ b := fun e => h e.symm
  simp [State.deref, State.free, List.getElem?_set_ne h2]

/-- What `port_uart_close` does to a live record and to the rest of the state. -/
theorem port_uart_close_effect (E : Env) (s : State) (a : Nat) (d : hal_uart_dev_s)
    (h : s.deref a = some d) :
    ∃ s1, port_uart_close E s (some a) = some s1 ∧
      s1.deref a = some { d with is_open := false } ∧
      s1.uart_devices = s.uart_devices ∧
      (∀ b, b ≠ a → s1.deref b = s.deref b) := by
  cases ho : d.is_open with
  | false =>
    refine ⟨s, port_uart_close_closed E s a d h ho, ?_, rfl, fun _ _ => rfl⟩
    rw [h, ← ho]
  | true =>
    refine ⟨_, port_uart_close_open E s a d h ho, ?_, rfl, ?_⟩
    · exact deref_store_same _ a d _ (by simpa [deref_call] using h)
    · intro b hb
      rw [deref_store_other _ a b _ hb]
      rfl

/-- One round of the loop of `port_uart_deinit` on a well-formed state: it returns a
well-formed state whose slot `i` is null and whose other slots are unchanged. -/
theorem port_uart_deinit_step_wf (E : Env) (s : State) (i : Nat) (hwf : s.wf E)
    (hi : i < MAX_UART_PORTS E) :
    ∃ s1, port_uart_deinit_step E s i = some s1 ∧ s1.wf E ∧
      s1.uart_devices.get? i = some none ∧
      (∀ j, j ≠ i → s1.uart_devices.get? j = s.uart_devices.get? j) := by
  obtain ⟨hlen, hlive, hinj⟩ := hwf
  have hil : i < s.uart_devices.length := hlen ▸ hi
  have hget : s.uart_devices.get? i = some (s.uart_devices.getD i none) := by
    simp [List.getD_eq_getElem?_getD, hil]
  cases hslot : s.uart_devices.getD i none with
  | none =>
    refine ⟨s, by simp only [port_uart_deinit_step, hslot], ⟨hlen, hlive, hinj⟩, ?_,
      fun _ _ => rfl⟩
    rw [hget, hslot]
  | some a =>
    rw [hslot] at hget
    obtain ⟨d, hd⟩ := Option.isSome_iff_exists.mp (hlive i a hget)
    obtain ⟨s1, hc, hda, hreg, hoth⟩ := port_uart_close_effect E s a d hd
    refine ⟨{ s1.free a with uart_devices := (s1.free a).uart_devices.set i none }, ?_, ?_, ?_, ?_⟩
    · simp only [port_uart_deinit_step, hslot, hal_uart_close, hc, hda]
    · refine ⟨?_, ?_, ?_⟩
      · simp [State.free, hreg, hlen]
      · intro j b hj
        have hji : j ≠ i := by
          intro e
          subst e
          simp [State.free, hreg, hil] at hj
        have hj2 : s.uart_devices.get? j = some (some b) := by
          have hij : i ≠ j := fun e => hji e.symm
          simpa [State.free, hreg, List.getElem?_set_ne hij] using hj
        have hba : b ≠ a := by
          intro e
          subst e
          exact hji (hinj j i b hj2 hget)
        have h1 : ({ s1.free a with uart_devices := (s1.free a).uart_devices.set i none } :
            State).deref b = (s1.free a).deref b := rfl
        rw [h1, deref_free_other _ a b hba, hoth b hba]
        exact hlive j b hj2
      · intro j k b hj hk
        have hji : j ≠ i := by
          intro e
          subst e
          simp [State.free, hreg, hil] at hj
        have hki : k ≠ i := by
          intro e
          subst e
          simp [State.free, hreg, hil] at hk
        have hij : i ≠ j := fun e => hji e.symm
        have hik : i ≠ k := fun e => hki e.symm
        have hj2 : s.uart_devices.get? j = some (some b) := by
          simpa [State.free, hreg, List.getElem?_set_ne hij] using hj
        have hk2 : s.uart_devices.get? k = some (some b) := by
          simpa [State.free, hreg, List.getElem?_set_ne hik] using hk
        exact hinj j k b hj2 hk2
    · simp [State.free, hreg, hil]
    · intro j hj
      have hij : i ≠ j := fun e => hj e.symm
      simp [State.free, hreg, List.getElem?_set_ne hij]

/-- The first `n` rounds of the loop of `port_uart_deinit` on a well-formed state return
a well-formed state whose first `n` slots are null. -/
theorem port_uart_deinit_loop (E : Env) (s : State) (hwf : s.wf E) (n : Nat)
    (hn : n ≤ MAX_UART_PORTS E) :
    ∃ s1, (List.range n).foldlM (port_uart_deinit_step E) s = some s1 ∧ s1.wf E ∧
      (∀ j, j < n → s1.uart_devices.get? j = some none) ∧
      (∀ j, n ≤ j → s1.uart_devices.get? j = s.uart_devices.get? j) := by
  induction n with
  | zero => exact ⟨s, rfl, hwf, fun j hj => absurd hj (Nat.not_lt_zero j), fun _ _ => rfl⟩
  | succ n ih =>
    obtain ⟨s1, h1, hwf1, hnull, hrest⟩ := ih (Nat.le_of_succ_le hn)
    obtain ⟨s2, h2, hwf2, hi, hoth⟩ := port_uart_deinit_step_wf E s1 n hwf1 hn
    refine ⟨s2, ?_, hwf2, ?_, ?_⟩
    · rw [List.range_succ, List.foldlM_append, h1]
      simp [h2]
    · intro j hj
      by_cases hjn : j = n
      · rw [hjn]
        exact hi
      · rw [hoth j hjn]
        exact hnull j (by omega)
    · intro j hj
      rw [hoth j (by omega)]
      exact hrest j (by omega)

/-- What `port_uart_open` does to the records that were live and to `uart_devices`: the
live records are kept, and the table is either unchanged or has the fresh address of a
record with `id = dev` in slot `dev`. -/
theorem port_uart_open_effect (E : Env) (s : State) (dev : Nat)
    (cfg : Option hal_uart_config_t) :
    (∀ b d, s.deref b = some d → (port_uart_open E s dev cfg).deref b = some d) ∧
    ((port_uart_open E s dev cfg).uart_devices = s.uart_devices ∨
      (dev < MAX_UART_PORTS E ∧
        (port_uart_open E s dev cfg).uart_devices
          = s.uart_devices.set dev (some s.heap.length) ∧
        ∃ d, (port_uart_open E s dev cfg).deref s.heap.length = some d ∧ d.id = dev)) := by
  cases cfg with
  | none => exact ⟨fun _ _ h => h, Or.inl rfl⟩
  | some c =>
    by_cases hd : MAX_UART_PORTS E ≤ dev
    · simp [port_uart_open, port_uart_open_body, hd]
    · by_cases hm : E.malloc_ok s.heap.length = true
      · cases hn : E.sp_get_port_by_name s.log (open_name E s dev) with
        | none =>
          refine ⟨?_, Or.inl ?_⟩
          · intro b d hb
            simp only [State.deref] at hb
            simpa [port_uart_open, port_uart_open_body, hd, hm, hn, State.call, State.free, State.deref,
              set_length_append] using join_get_append_of_some s.heap none b d hb
          · simp [port_uart_open, port_uart_open_body, hd, hm, hn, State.call, State.free]
        | some port =>
          by_cases ho : E.sp_open (s.log ++ [.sp_get_port_by_name (open_name E s dev)]) port
              = true
          · refine ⟨?_, Or.inr ⟨Nat.lt_of_not_le hd, ?_, ?_⟩⟩
            · intro b d hb
              simp only [State.deref] at hb
              simpa [port_uart_open, port_uart_open_body, hd, hm, hn, ho, State.call, State.store, State.deref,
                set_length_append] using join_get_append_of_some s.heap _ b d hb
            · simp [port_uart_open, port_uart_open_body, hd, hm, hn, ho, State.call, State.store]
            · simp [port_uart_open, port_uart_open_body, hd, hm, hn, ho, State.call, State.store, State.deref,
                set_length_append]
          · refine ⟨?_, Or.inl ?_⟩
            · intro b d hb
              simp only [State.deref] at hb
              simpa [port_uart_open, port_uart_open_body, hd, hm, hn, ho, State.call, State.store, State.free,
                State.deref, set_length_append] using join_get_append_of_some s.heap none b d hb
            · simp [port_uart_open, port_uart_open_body, hd, hm, hn, ho, State.call, State.store, State.free]
      · simp [port_uart_open, port_uart_open_body, hd, hm]

theorem deref_lt_length (s : State) (a : Nat) (h : (s.deref a).isSome = true) :
    a < s.heap.length := by
  by_contra ha
  unfold State.deref at h
  rw [List.get?_eq_none.mpr (Nat.le_of_not_lt ha)] at h
  simp at h

/-- A call of `port_uart_open` keeps a state well-formed with matching slots. -/
theorem port_uart_open_inv (E : Env) (s : State) (dev : Nat)
    (cfg : Option hal_uart_config_t) (hwf : s.wf E) (hm : s.slots_match) :
    (port_uart_open E s dev cfg).wf E ∧ (port_uart_open E s dev cfg).slots_match := by
  obtain ⟨hkeep, hreg⟩ := port_uart_open_effect E s dev cfg
  obtain ⟨hlen, hlive, hinj⟩ := hwf
  rcases hreg with hreg | ⟨hdev, hreg, dnew, hnew, hid⟩
  · refine ⟨⟨by rw [hreg]; exact hlen, ?_, ?_⟩, ?_⟩
    · intro i a hi
      rw [hreg] at hi
      obtain ⟨d, hd⟩ := Option.isSome_iff_exists.mp (hlive i a hi)
      rw [hkeep a d hd]
      rfl
    · intro i j a hi hj
      rw [hreg] at hi hj
      exact hinj i j a hi hj
    · intro i a hi
      rw [hreg] at hi
      obtain ⟨d, hd, hid⟩ := hm i a hi
      exact ⟨d, hkeep a d hd, hid⟩
  · have hdl : dev < s.uart_devices.length := hlen ▸ hdev
    have hslot : ∀ i a, (port_uart_open E s dev cfg).uart_devices.get? i = some (some a) →
        (i = dev ∧ a = s.heap.length) ∨
        (i ≠ dev ∧ s.uart_devices.get? i = some (some a) ∧ a ≠ s.heap.length) := by
      intro i a hi
      rw [hreg] at hi
      by_cases hid : i = dev
      · subst hid
        left
        simp [hdl] at hi
        exact ⟨rfl, hi.symm⟩
      · right
        have hne : dev ≠ i := fun e => hid e.symm
        have hi2 : s.uart_devices.get? i = some (some a) := by
          simpa [List.getElem?_set_ne hne] using hi
        exact ⟨hid, hi2, Nat.ne_of_lt (deref_lt_length s a (hlive i a hi2))⟩
    refine ⟨⟨by rw [hreg]; simpa using hlen, ?_, ?_⟩, ?_⟩
    · intro i a hi
      rcases hslot i a hi with ⟨_, rfl⟩ | ⟨_, hi2, _⟩
      · rw [hnew]
        rfl
      · obtain ⟨d, hd⟩ := Option.isSome_iff_exists.mp (hlive i a hi2)
        rw [hkeep a d hd]
        rfl
    · intro i j a hi hj
      rcases hslot i a hi with ⟨rfl, rfl⟩ | ⟨_, hi2, hia⟩
      · rcases hslot j _ hj with ⟨rfl, _⟩ | ⟨_, _, hja⟩
        · rfl
        · exact absurd rfl hja
      · rcases hslot j a hj with ⟨_, rfl⟩ | ⟨_, hj2, _⟩
        · exact absurd rfl hia
        · exact hinj i j a hi2 hj2
    · intro i a hi
      rcases hslot i a hi with ⟨rfl, rfl⟩ | ⟨_, hi2, _⟩
      · exact ⟨dnew, hnew, hid⟩
      · obtain ⟨d, hd, hid2⟩ := hm i a hi2
        exact ⟨d, hkeep a d hd, hid2⟩

/-- A call of `port_uart_close` keeps a state well-formed with matching slots. -/
theorem port_uart_close_inv (E : Env) (s s1 : State) (dev : Option Nat)
    (hwf : s.wf E) (hm : s.slots_match) (hc : port_uart_close E s dev = some s1) :
    s1.wf E ∧ s1.slots_match := by
  cases dev with
  | none =>
    cases hc
    exact ⟨hwf, hm⟩
  | some a =>
    cases hd : s.deref a with
    | none => simp [port_uart_close, hd] at hc
    | some d =>
      obtain ⟨s2, h2, hda, hreg, hoth⟩ := port_uart_close_effect E s a d hd
      rw [h2] at hc
      cases hc
      obtain ⟨hlen, hlive, hinj⟩ := hwf
      have hderef : ∀ b e, s.deref b = some e → ∃ e1, s1.deref b = some e1 ∧ e1.id = e.id := by
        intro b e hb
        by_cases hba : b = a
        · subst hba
          rw [hd] at hb
          cases hb
          exact ⟨_, hda, rfl⟩
        · exact ⟨e, by rw [hoth b hba]; exact hb, rfl⟩
      refine ⟨⟨by rw [hreg]; exact hlen, ?_, ?_⟩, ?_⟩
      · intro i b hi
        rw [hreg] at hi
        obtain ⟨e, he⟩ := Option.isSome_iff_exists.mp (hlive i b hi)
        obtain ⟨e1, he1, _⟩ := hderef b e he
        rw [he1]
        rfl
      · intro i j b hi hj
        rw [hreg] at hi hj
        exact hinj i j b hi hj
      · intro i b hi
        rw [hreg] at hi
        obtain ⟨e, he, hid⟩ := hm i b hi
        obtain ⟨e1, he1, hid1⟩ := hderef b e he
        exact ⟨e1, he1, hid1.trans hid⟩

/-- Every reachable state is well-formed with matching slots. -/
theorem reachable_inv (E : Env) (s : State) (h : Reachable E s) : s.wf E ∧ s.slots_match := by
  induction h with
  | start =>
    have h0 : port_uart_init E (State.start E) = State.start E := by
      rw [port_uart_init_eq E _ (by simp [State.start])]
      rfl
    rw [h0]
    refine ⟨⟨by simp [State.start], ?_, ?_⟩, ?_⟩
    · intro i a hi
      simp [State.start, List.getElem?_replicate] at hi
    · intro i j a hi
      simp [State.start, List.getElem?_replicate] at hi
    · intro i a hi
      simp [State.start, List.getElem?_replicate] at hi
  | step_open s dev cfg _ ih => exact port_uart_open_inv E s dev cfg ih.1 ih.2
  | step_close s s1 dev _ hc ih => exact port_uart_close_inv E s s1 dev ih.1 ih.2 hc
  | step_deinit s s1 _ hd ih =>
    obtain ⟨s2, h2, hwf2, hnull, _⟩ := port_uart_deinit_loop E s ih.1 _ (le_refl _)
    have hd2 : port_uart_deinit E s = some s2 := h2
    rw [hd2] at hd
    cases hd
    refine ⟨hwf2, ?_⟩
    intro i a hi
    by_cases hlt : i < MAX_UART_PORTS E
    · rw [hnull i hlt] at hi
      cases hi
    · rw [List.get?_eq_none.mpr (by rw [hwf2.1]; omega)] at hi
      cases hi

theorem state_port0_twice_reachable : Reachable env_ok state_port0_twice := by
  have h0 : Reachable env_ok (State.start env_ok) := by
    have h := Reachable.start (E := env_ok)
    have e : port_uart_init env_ok (State.start env_ok) = State.start env_ok := by decide
    rwa [e] at h
  exact Reachable.step_open _ 0 (some cfg_115200)
    (Reachable.step_open _ 0 (some cfg_115200) h0)

theorem state_mixed_eq :
    state_mixed =
      { heap := [some dev_port0,
                 some { port := 7, port_name := some "COM2", is_open := false,
                        config := cfg_115200, id := 1 }],
        uart_devices := [some 0, some 1, none],
        log := state_mixed.log } := by
  decide

theorem state_mixed_wf : state_mixed.wf env_ok := by
  have hu : state_mixed.uart_devices = [some 0, some 1, none] := by decide
  refine ⟨by decide, ?_, ?_⟩
  · intro i a h
    rw [hu] at h
    match i, h with
    | 0, h =>
      obtain rfl : a = 0 := by simpa using h.symm
      decide
    | 1, h =>
      obtain rfl : a = 1 := by simpa using h.symm
      decide
    | 2, h => simp at h
    | n + 3, h => simp at h
  · intro i j a hi hj
    rw [hu] at hi hj
    match i, j, hi, hj with
    | 0, 0, _, _ => rfl
    | 1, 1, _, _ => rfl
    | 0, 1, hi, hj =>
      obtain rfl : a = 0 := by simpa using hi.symm
      simp at hj
    | 1, 0, hi, hj =>
      obtain rfl : a = 1 := by simpa using hi.symm
      simp at hj
    | 2, _, hi, _ => simp at hi
    | n + 3, _, hi, _ => simp at hi
    | _, 2, _, hj => simp at hj
    | _, n + 3, _, hj => simp at hj

/-! ## Claims -/

/-- The effect of a failing call of `port_uart_open`.  When the port id is not below
`MAX_UART_PORTS`, or the configuration pointer is null, or `sp_get_port_by_name` fails,
or `sp_open` fails, the call ends at a `return NULL` statement and leaves `uart_devices`
as it was; in the two invalid-argument cases the whole state, the log of libserialport
calls included, is the state before the call. -/
theorem port_uart_open_failure_state (E : Env) (s : State) (dev : Nat)
    (cfg : Option hal_uart_config_t)
    (h : dev ≥ MAX_UART_PORTS E ∨ cfg = none ∨
      E.sp_get_port_by_name s.log (open_name E s dev) = none ∨
      ∃ port, E.sp_get_port_by_name s.log (open_name E s dev) = some port ∧
        E.sp_open (s.log ++ [.sp_get_port_by_name (open_name E s dev)]) port = false) :
    (port_uart_open_body E s dev cfg).2 = none ∧
    (port_uart_open E s dev cfg).uart_devices = s.uart_devices ∧
    (dev ≥ MAX_UART_PORTS E ∨ cfg = none → port_uart_open E s dev cfg = s) := by
  cases cfg with
  | none => simp [port_uart_open, port_uart_open_body]
  | some c =>
    by_cases hd : dev ≥ MAX_UART_PORTS E
    · simp [port_uart_open, port_uart_open_body, hd]
    · by_cases hm : E.malloc_ok s.heap.length = true
      · have hd2 : ¬ (MAX_UART_PORTS E ≤ dev) := hd
        rcases h with h | h | h | ⟨port, h1, h2⟩
        · exact absurd h hd
        · exact absurd h (by simp)
        · simp [port_uart_open, port_uart_open_body, hd2, hm, State.call, State.free, h]
        · simp [port_uart_open, port_uart_open_body, hd2, hm, State.call, State.free,
            State.store, h1, h2]
      · have hd2 : ¬ (MAX_UART_PORTS E ≤ dev) := hd
        simp [port_uart_open, port_uart_open_body, hd2, hm]

/-- The failing calls at concrete inputs: port id 3 of 3 ports; a null configuration; a
name that does not resolve; a port that does not open. -/
theorem port_uart_open_failure_state_example :
    port_uart_open env_ok (State.start env_ok) 3 (some cfg_115200) = State.start env_ok ∧
    port_uart_open env_ok (State.start env_ok) 0 none = State.start env_ok ∧
    (port_uart_open env_no_port (State.start env_no_port) 0 (some cfg_115200)).uart_devices
        = [none, none, none] ∧
    (port_uart_open_body env_busy (State.start env_busy) 1 (some cfg_115200)).2 = none :=
  ⟨(port_uart_open_failure_state env_ok (State.start env_ok) 3 (some cfg_115200)
      (Or.inl (by decide))).2.2 (Or.inl (by decide)),
   (port_uart_open_failure_state env_ok (State.start env_ok) 0 none
      (Or.inr (Or.inl rfl))).2.2 (Or.inr rfl),
   (port_uart_open_failure_state env_no_port (State.start env_no_port) 0 (some cfg_115200)
      (Or.inr (Or.inr (Or.inl rfl)))).2.1,
   (port_uart_open_failure_state env_busy (State.start env_busy) 1 (some cfg_115200)
      (Or.inr (Or.inr (Or.inr ⟨7, rfl, rfl⟩)))).1⟩

/-- C1, the code at a failing input: port id 3 with three ports and a valid
configuration, in `env_stale`.  The call ends at `return NULL` and leaves the state as it
was, but `port_uart_open` is a `void` function and delivers no value: the caller through
the `open` member finds the value 3 (not null) in place of the null handle. -/
theorem open_invalid_port_caller_value :
    (port_uart_open_body env_stale (State.start env_stale) 3 (some cfg_115200)).2 = none ∧
    port_uart_open env_stale (State.start env_stale) 3 (some cfg_115200)
      = State.start env_stale ∧
    ((HAL_UART_DRIVER env_stale).open_ (State.start env_stale) 3 (some cfg_115200)).2
      = some 3 := by
  decide

/-- The effect of a successful call of `port_uart_open`.  For a port id below
`MAX_UART_PORTS` and a non-null configuration, when `malloc`, `strdup`,
`sp_get_port_by_name` and `sp_open` succeed, the call ends at `return uart` with `uart` a
fresh record that has `is_open = true`, `id` the port id, `config` the supplied
configuration and `port_name` the text `COM` followed by the decimal port id plus one;
slot `dev` of `uart_devices` holds that pointer and every other slot is unchanged. -/
theorem port_uart_open_success_state (E : Env) (s : State) (dev : Nat) (c : hal_uart_config_t)
    (port : Nat)
    (hlen : s.uart_devices.length = MAX_UART_PORTS E)
    (hdev : dev < MAX_UART_PORTS E)
    (hmalloc : E.malloc_ok s.heap.length = true)
    (hstrdup : E.strdup_ok s.heap.length = true)
    (hname : E.sp_get_port_by_name s.log (some ("COM" ++ toString (dev + 1))) = some port)
    (hopen : E.sp_open
      (s.log ++ [.sp_get_port_by_name (some ("COM" ++ toString (dev + 1)))]) port = true) :
    ∃ a s1, port_uart_open_body E s dev (some c) = (s1, some a) ∧
      s.deref a = none ∧
      s1.deref a = some { port := port, port_name := some ("COM" ++ toString (dev + 1)),
                          is_open := true, config := c, id := dev } ∧
      s1.uart_devices.get? dev = some (some a) ∧
      (∀ j, j ≠ dev → s1.uart_devices.get? j = s.uart_devices.get? j) ∧
      s1.uart_devices.length = s.uart_devices.length := by
  have hlt : dev + 1 < 2 ^ 32 := by
    have := E.num_ports_lt
    unfold MAX_UART_PORTS at hdev
    omega
  have hn : open_name E s dev = some ("COM" ++ toString (dev + 1)) := by
    simp [open_name, hstrdup, snprintf_name_eq dev hlt]
  have hd2 : ¬ (MAX_UART_PORTS E ≤ dev) := Nat.not_le.mpr hdev
  refine ⟨s.heap.length, (port_uart_open E s dev (some c)), ?_, ?_, ?_, ?_, ?_, ?_⟩
  · simp [port_uart_open, port_uart_open_body, hd2, hmalloc, hn, hname, hopen, State.call, State.store]
  · simp [State.deref]
  · simp [port_uart_open, port_uart_open_body, hd2, hmalloc, hn, hname, hopen, State.call, State.store,
      State.deref, set_length_append]
  · have hdl : dev < s.uart_devices.length := hlen ▸ hdev
    simp [port_uart_open, port_uart_open_body, hd2, hmalloc, hn, hname, hopen, State.call, State.store, hdl]
  · intro j hj
    have hj2 : dev ≠ j := fun h => hj h.symm
    simp [port_uart_open, port_uart_open_body, hd2, hmalloc, hn, hname, hopen, State.call, State.store,
      List.getElem?_set_ne hj2]
  · simp [port_uart_open, port_uart_open_body, hd2, hmalloc, hn, hname, hopen, State.call, State.store]

/-- The successful call at port 0 of `env_ok` with 115200 baud, one stop bit and no
parity: the record is open and named `COM1`. -/
theorem port_uart_open_success_state_example :
    ∃ a s1, port_uart_open_body env_ok (State.start env_ok) 0 (some cfg_115200)
        = (s1, some a) ∧
      (State.start env_ok).deref a = none ∧
      s1.deref a = some { port := 7, port_name := some "COM1",
                          is_open := true, config := cfg_115200, id := 0 } ∧
      s1.uart_devices.get? 0 = some (some a) ∧
      (∀ j, j ≠ 0 → s1.uart_devices.get? j = (State.start env_ok).uart_devices.get? j) ∧
      s1.uart_devices.length = (State.start env_ok).uart_devices.length :=
  port_uart_open_success_state env_ok (State.start env_ok) 0 cfg_115200 7
    rfl (by decide) rfl rfl rfl rfl


/-- C2, the code at a failing input: port 0 with 115200 baud, one stop bit and no parity,
every allocation and libserialport call succeeding, in `env_stale`.  The call ends at
`return uart` and slot 0 holds the new open record named `COM1`, at address 0, but
`port_uart_open` is a `void` function and delivers no value: the caller through the
`open` member finds the value 3, which is not the pointer in slot 0 and points to no
record. -/
theorem open_success_caller_value :
    (port_uart_open_body env_stale (State.start env_stale) 0 (some cfg_115200)).2 = some 0 ∧
    (port_uart_open env_stale (State.start env_stale) 0 (some cfg_115200)).uart_devices
      = [some 0, none, none] ∧
    (port_uart_open env_stale (State.start env_stale) 0 (some cfg_115200)).deref 0
      = some dev_port0 ∧
    ((HAL_UART_DRIVER env_stale).open_ (State.start env_stale) 0 (some cfg_115200)).2
      = some 3 ∧
    (port_uart_open env_stale (State.start env_stale) 0 (some cfg_115200)).deref 3 = none := by
  decide

/-- C3. After `port_uart_close` on a null pointer or on a live record (open or not),
`port_uart_bytes_available` returns 0, `port_uart_read` and `port_uart_write` return -1
for every buffer and length, and `port_uart_flush` returns; each of the four leaves the
state, the log of libserialport calls included, and the caller's buffer as they were. -/
theorem closed_device_io (E : Env) (s : State) (dev : Option Nat) (hv : s.valid dev) :
    ∃ s1, port_uart_close E s dev = some s1 ∧
      port_uart_bytes_available E s1 dev = some (s1, 0) ∧
      (∀ buffer size, port_uart_read E s1 dev buffer size = some (s1, -1, buffer)) ∧
      (∀ buffer size, port_uart_write E s1 dev buffer size = some (s1, -1)) ∧
      port_uart_flush E s1 dev = some s1 := by
  cases dev with
  | none =>
    exact ⟨s, rfl, rfl, fun _ _ => rfl, fun _ _ => rfl, rfl⟩
  | some a =>
    obtain ⟨d, hd⟩ := Option.isSome_iff_exists.mp hv
    obtain ⟨s1, h1, h2⟩ := port_uart_close_result E s a d hd
    refine ⟨s1, h1, ?_, ?_, ?_, ?_⟩
    · simp [port_uart_bytes_available, h2]
    · intro buffer size
      simp [port_uart_read, h2]
    · intro buffer size
      simp [port_uart_write, h2]
    · simp [port_uart_flush, h2]

/-- C3, on the device that was opened as port 0 of `env_ok`. -/
theorem closed_device_io_witness :
    ∃ s1, port_uart_close env_ok (state_port0_open env_ok) (some 0) = some s1 ∧
      port_uart_bytes_available env_ok s1 (some 0) = some (s1, 0) ∧
      (∀ buffer size, port_uart_read env_ok s1 (some 0) buffer size = some (s1, -1, buffer)) ∧
      (∀ buffer size, port_uart_write env_ok s1 (some 0) buffer size = some (s1, -1)) ∧
      port_uart_flush env_ok s1 (some 0) = some s1 :=
  closed_device_io env_ok (state_port0_open env_ok) (some 0) (by decide)


/-- C4. On a live record `d` at address `a`: `port_uart_read` and `port_uart_write`
return; when the record is open and the buffer is not null they make one blocking call
with the 1000 ms timeout and return its result `r` if `0 ≤ r` (so 0 for a timeout
without data) and -1 if `r < 0`; and the value returned is -1 exactly when the record is
not open, or the buffer is null, or libserialport reported a negative result.  On a null
device pointer both return -1. -/
theorem read_write_sentinel (E : Env) (s : State) (a : Nat) (d : hal_uart_dev_s)
    (buffer : Option (List Nat)) (size : Nat) (hd : s.deref a = some d) :
    (∃ s1 ret out, port_uart_read E s (some a) buffer size = some (s1, ret, out) ∧
      (d.is_open = true → buffer ≠ none →
        s1 = s.call (.sp_blocking_read d.port size 1000) ∧
        (0 ≤ (E.sp_blocking_read s.log d.port size 1000).1 →
          ret = (E.sp_blocking_read s.log d.port size 1000).1) ∧
        ((E.sp_blocking_read s.log d.port size 1000).1 < 0 → ret = -1)) ∧
      (ret = -1 ↔ d.is_open = false ∨ buffer = none ∨
        (E.sp_blocking_read s.log d.port size 1000).1 < 0)) ∧
    (∃ s1 ret, port_uart_write E s (some a) buffer size = some (s1, ret) ∧
      (d.is_open = true → ∀ buf, buffer = some buf →
        s1 = s.call (.sp_blocking_write d.port buf size 1000) ∧
        (0 ≤ E.sp_blocking_write s.log d.port buf size 1000 →
          ret = E.sp_blocking_write s.log d.port buf size 1000) ∧
        (E.sp_blocking_write s.log d.port buf size 1000 < 0 → ret = -1)) ∧
      (ret = -1 ↔ d.is_open = false ∨ buffer = none ∨
        ∃ buf, buffer = some buf ∧ E.sp_blocking_write s.log d.port buf size 1000 < 0)) ∧
    port_uart_read E s none buffer size = some (s, -1, buffer) ∧
    port_uart_write E s none buffer size = some (s, -1) := by
  refine ⟨?_, ?_, rfl, rfl⟩
  · cases ho : d.is_open with
    | false => exact ⟨s, -1, buffer, by simp [port_uart_read, hd, ho], by simp, by simp⟩
    | true =>
      cases buffer with
      | none => exact ⟨s, -1, none, by simp [port_uart_read, hd, ho], by simp, by simp⟩
      | some buf =>
        by_cases hr : 0 ≤ (E.sp_blocking_read s.log d.port size 1000).1
        · refine ⟨s.call (.sp_blocking_read d.port size 1000),
            (E.sp_blocking_read s.log d.port size 1000).1,
            some ((E.sp_blocking_read s.log d.port size 1000).2 ++
              buf.drop (E.sp_blocking_read s.log d.port size 1000).2.length),
            by simp [port_uart_read, hd, ho, hr], ?_, ?_⟩
          · intro _ _
            exact ⟨rfl, fun _ => rfl, fun h => absurd hr (not_le.mpr h)⟩
          · constructor
            · intro h
              rw [h] at hr
              exact absurd hr (by decide)
            · intro h
              rcases h with h | h | h
              · exact absurd h (by simp)
              · exact absurd h (by simp)
              · exact absurd hr (not_le.mpr h)
        · refine ⟨s.call (.sp_blocking_read d.port size 1000), -1,
            some ((E.sp_blocking_read s.log d.port size 1000).2 ++
              buf.drop (E.sp_blocking_read s.log d.port size 1000).2.length),
            by simp [port_uart_read, hd, ho, hr], ?_, ?_⟩
          · intro _ _
            exact ⟨rfl, fun h => absurd h hr, fun _ => rfl⟩
          · exact ⟨fun _ => Or.inr (Or.inr (not_le.mp hr)), fun _ => rfl⟩
  · cases ho : d.is_open with
    | false => exact ⟨s, -1, by simp [port_uart_write, hd, ho], by simp, by simp⟩
    | true =>
      cases buffer with
      | none => exact ⟨s, -1, by simp [port_uart_write, hd, ho], by simp, by simp⟩
      | some buf =>
        by_cases hr : 0 ≤ E.sp_blocking_write s.log d.port buf size 1000
        · refine ⟨s.call (.sp_blocking_write d.port buf size 1000),
            E.sp_blocking_write s.log d.port buf size 1000,
            by simp [port_uart_write, hd, ho, hr], ?_, ?_⟩
          · intro _ b hb
            cases hb
            exact ⟨rfl, fun _ => rfl, fun h => absurd hr (not_le.mpr h)⟩
          · constructor
            · intro h
              rw [h] at hr
              exact absurd hr (by decide)
            · intro h
              rcases h with h | h | ⟨b, hb, h⟩
              · exact absurd h (by simp)
              · exact absurd h (by simp)
              · cases hb
                exact absurd hr (not_le.mpr h)
        · refine ⟨s.call (.sp_blocking_write d.port buf size 1000), -1,
            by simp [port_uart_write, hd, ho, hr], ?_, ?_⟩
          · intro _ b hb
            cases hb
            exact ⟨rfl, fun h => absurd h hr, fun _ => rfl⟩
          · exact ⟨fun _ => Or.inr (Or.inr ⟨buf, rfl, not_le.mp hr⟩), fun _ => rfl⟩


/-- C4, on the open port 0 of `env_ok`, whose reads time out without data: a read of one
byte returns 0, which is not the sentinel; with the error -2 of `env_io_error` it
returns -1. -/
theorem read_write_sentinel_witness :
    (state_port0_open env_ok).deref 0 = some dev_port0 ∧
    (∃ s1 ret out,
      port_uart_read env_ok (state_port0_open env_ok) (some 0) (some [9]) 1
        = some (s1, ret, out) ∧
      (dev_port0.is_open = true → some [9] ≠ none →
        s1 = (state_port0_open env_ok).call (.sp_blocking_read dev_port0.port 1 1000) ∧
        (0 ≤ (env_ok.sp_blocking_read (state_port0_open env_ok).log dev_port0.port 1 1000).1 →
          ret = (env_ok.sp_blocking_read (state_port0_open env_ok).log dev_port0.port 1 1000).1) ∧
        ((env_ok.sp_blocking_read (state_port0_open env_ok).log dev_port0.port 1 1000).1 < 0 →
          ret = -1)) ∧
      (ret = -1 ↔ dev_port0.is_open = false ∨ some [9] = none ∨
        (env_ok.sp_blocking_read (state_port0_open env_ok).log dev_port0.port 1 1000).1 < 0)) ∧
    (port_uart_read env_ok (state_port0_open env_ok) (some 0) (some [9]) 1).map
        (fun x => x.2.1) = some 0 ∧
    (port_uart_read env_io_error (state_port0_open env_io_error) (some 0) (some [9]) 1).map
        (fun x => x.2.1) = some (-1) :=
  ⟨by decide,
   (read_write_sentinel env_ok (state_port0_open env_ok) 0 dev_port0 (some [9]) 1
      (by decide)).1,
   by decide, by decide⟩

/-- C5. For a null or live device, every buffer and every requested length,
`port_uart_read` and `port_uart_write` return, and the value returned is -1 or a count
between 0 and the requested length.  The driver passes on the count of libserialport;
`hread` and `hwrite` are the contract of `sp_blocking_read` and `sp_blocking_write`, which
report at most the count requested of them. -/
theorem read_write_count_bounded (E : Env) (s : State) (dev : Option Nat)
    (buffer : Option (List Nat)) (size : Nat) (hv : s.valid dev)
    (hread : ∀ log port count t, (E.sp_blocking_read log port count t).1 ≤ (count : Int))
    (hwrite : ∀ log port data count t, E.sp_blocking_write log port data count t ≤ (count : Int)) :
    (∃ s1 ret out, port_uart_read E s dev buffer size = some (s1, ret, out) ∧
      (ret = -1 ∨ (0 ≤ ret ∧ ret ≤ (size : Int)))) ∧
    (∃ s1 ret, port_uart_write E s dev buffer size = some (s1, ret) ∧
      (ret = -1 ∨ (0 ≤ ret ∧ ret ≤ (size : Int)))) := by
  cases dev with
  | none => exact ⟨⟨s, -1, buffer, rfl, Or.inl rfl⟩, ⟨s, -1, rfl, Or.inl rfl⟩⟩
  | some a =>
    obtain ⟨d, hd⟩ := Option.isSome_iff_exists.mp hv
    cases ho : d.is_open with
    | false =>
      exact ⟨⟨s, -1, buffer, by simp [port_uart_read, hd, ho], Or.inl rfl⟩,
        ⟨s, -1, by simp [port_uart_write, hd, ho], Or.inl rfl⟩⟩
    | true =>
      cases buffer with
      | none =>
        exact ⟨⟨s, -1, none, by simp [port_uart_read, hd, ho], Or.inl rfl⟩,
          ⟨s, -1, by simp [port_uart_write, hd, ho], Or.inl rfl⟩⟩
      | some buf =>
        constructor
        · refine ⟨s.call (.sp_blocking_read d.port size 1000),
            if 0 ≤ (E.sp_blocking_read s.log d.port size 1000).1
              then (E.sp_blocking_read s.log d.port size 1000).1 else -1,
            some ((E.sp_blocking_read s.log d.port size 1000).2 ++
              buf.drop (E.sp_blocking_read s.log d.port size 1000).2.length),
            by simp [port_uart_read, hd, ho], ?_⟩
          split
          · next h => exact Or.inr ⟨h, hread _ _ _ _⟩
          · exact Or.inl rfl
        · refine ⟨s.call (.sp_blocking_write d.port buf size 1000),
            if 0 ≤ E.sp_blocking_write s.log d.port buf size 1000
              then E.sp_blocking_write s.log d.port buf size 1000 else -1,
            by simp [port_uart_write, hd, ho], ?_⟩
          split
          · next h => exact Or.inr ⟨h, hwrite _ _ _ _ _⟩
          · exact Or.inl rfl

/-- C5, on the open port 0 of `env_ok` with a request of 5 bytes. -/
theorem read_write_count_bounded_witness :
    (∃ s1 ret out, port_uart_read env_ok (state_port0_open env_ok) (some 0)
        (some [0, 0, 0, 0, 0]) 5 = some (s1, ret, out) ∧
      (ret = -1 ∨ (0 ≤ ret ∧ ret ≤ ((5 : Nat) : Int)))) ∧
    (∃ s1 ret, port_uart_write env_ok (state_port0_open env_ok) (some 0)
        (some [0, 0, 0, 0, 0]) 5 = some (s1, ret) ∧
      (ret = -1 ∨ (0 ≤ ret ∧ ret ≤ ((5 : Nat) : Int)))) :=
  read_write_count_bounded env_ok (state_port0_open env_ok) (some 0) (some [0, 0, 0, 0, 0]) 5
    (by decide) (fun _ _ count _ => Int.ofNat_nonneg count) (fun _ _ _ _ _ => le_refl _)


/-- C6. Whenever `port_uart_open` ends at `return uart`, the calls it made to
libserialport are, in order: the name resolution, `sp_open`, `sp_set_baudrate` with
`baudrate_to_int` of the configured rate, `sp_set_bits` with 8, `sp_set_stopbits` with 2
for `HAL_UART_STOP_BITS_2` and 1 otherwise, `sp_set_parity` with odd for
`HAL_UART_PARITY_ODD`, even for `HAL_UART_PARITY_EVEN` and none otherwise, and
`sp_set_flowcontrol` with none; `baudrate_to_int` gives 9600, 19200, 38400, 57600 and
115200 for the five enumerators and 9600 for every other value. -/
theorem port_uart_open_configuration (E : Env) (s : State) (dev : Nat)
    (c : hal_uart_config_t) (h : (port_uart_open_body E s dev (some c)).2 ≠ none) :
    (∃ port, E.sp_get_port_by_name s.log (open_name E s dev) = some port ∧
      (port_uart_open E s dev (some c)).log = s.log ++
        [.sp_get_port_by_name (open_name E s dev),
         .sp_open_read_write port,
         .sp_set_baudrate port (baudrate_to_int c.baud_rate),
         .sp_set_bits port 8,
         .sp_set_stopbits port (if c.stop_bits = .HAL_UART_STOP_BITS_2 then 2 else 1),
         .sp_set_parity port
           (match c.parity with
            | .HAL_UART_PARITY_ODD => .SP_PARITY_ODD
            | .HAL_UART_PARITY_EVEN => .SP_PARITY_EVEN
            | _ => .SP_PARITY_NONE),
         .sp_set_flowcontrol_none port]) ∧
    baudrate_to_int c.baud_rate =
      (match c.baud_rate with
       | .HAL_UART_BAUD_RATE_9600 => 9600
       | .HAL_UART_BAUD_RATE_19200 => 19200
       | .HAL_UART_BAUD_RATE_38400 => 38400
       | .HAL_UART_BAUD_RATE_57600 => 57600
       | .HAL_UART_BAUD_RATE_115200 => 115200
       | .other _ => 9600) := by
  constructor
  · by_cases hd : MAX_UART_PORTS E ≤ dev
    · simp [port_uart_open, port_uart_open_body, hd] at h
    · by_cases hm : E.malloc_ok s.heap.length = true
      · cases hn : E.sp_get_port_by_name s.log (open_name E s dev) with
        | none => simp [port_uart_open, port_uart_open_body, hd, hm, hn] at h
        | some port =>
          by_cases ho : E.sp_open (s.log ++ [.sp_get_port_by_name (open_name E s dev)]) port
              = true
          · refine ⟨port, rfl, ?_⟩
            have hp : parity_of c.parity =
                (match c.parity with
                 | .HAL_UART_PARITY_ODD => sp_parity.SP_PARITY_ODD
                 | .HAL_UART_PARITY_EVEN => sp_parity.SP_PARITY_EVEN
                 | _ => sp_parity.SP_PARITY_NONE) := by
              cases c.parity <;> simp [parity_of]
            rw [← hp]
            simp [port_uart_open, port_uart_open_body, hd, hm, hn, ho, State.call, State.store, stopbits_of]
          · simp [port_uart_open, port_uart_open_body, hd, hm, hn, ho, State.call, State.store] at h
      · simp [port_uart_open, port_uart_open_body, hd, hm] at h
  · cases c.baud_rate <;> rfl

/-- C6, on port 0 of `env_ok` with 115200 baud, one stop bit and no parity. -/
theorem port_uart_open_configuration_witness :
    (port_uart_open_body env_ok (State.start env_ok) 0 (some cfg_115200)).2 ≠ none ∧
    (port_uart_open env_ok (State.start env_ok) 0 (some cfg_115200)).log =
      [.sp_get_port_by_name (some "COM1"), .sp_open_read_write 7,
       .sp_set_baudrate 7 115200, .sp_set_bits 7 8, .sp_set_stopbits 7 1,
       .sp_set_parity 7 .SP_PARITY_NONE, .sp_set_flowcontrol_none 7] := by
  refine ⟨by decide, ?_⟩
  obtain ⟨port, hp, hlog⟩ :=
    (port_uart_open_configuration env_ok (State.start env_ok) 0 cfg_115200 (by decide)).1
  have h7 : port = 7 := (Option.some.inj hp).symm
  subst h7
  rw [hlog]
  decide

/-- C7. `port_uart_close` returns the state unchanged for a null pointer and for a live
record that is not open, and closing twice is closing once.  On a live open record it
calls `sp_close` and `sp_free_port` on the record's port and clears `is_open`; `id`,
`port_name`, `config` and `port` of the record, every other record and every slot of
`uart_devices` are unchanged. -/
theorem port_uart_close_frame (E : Env) (s : State) :
    port_uart_close E s none = some s ∧
    (∀ a d, s.deref a = some d → d.is_open = false → port_uart_close E s (some a) = some s) ∧
    (∀ a d, s.deref a = some d → d.is_open = true →
      ∃ s1, port_uart_close E s (some a) = some s1 ∧
        s1.log = s.log ++ [.sp_close d.port, .sp_free_port d.port] ∧
        s1.deref a = some { port := d.port, port_name := d.port_name, is_open := false,
                            config := d.config, id := d.id } ∧
        (∀ b, b ≠ a → s1.deref b = s.deref b) ∧
        s1.uart_devices = s.uart_devices) ∧
    (∀ dev, (port_uart_close E s dev).bind (fun s1 => port_uart_close E s1 dev)
      = port_uart_close E s dev) := by
  refine ⟨rfl, fun a d hd hc => port_uart_close_closed E s a d hd hc, ?_, ?_⟩
  · intro a d hd ho
    refine ⟨_, port_uart_close_open E s a d hd ho, ?_, ?_, ?_, rfl⟩
    · simp [State.call, State.store]
    · exact deref_store_same _ a d _ (by simpa [deref_call] using hd)
    · intro b hb
      rw [deref_store_other _ a b _ hb]
      rfl
  · intro dev
    cases dev with
    | none => rfl
    | some a =>
      cases hd : s.deref a with
      | none => simp [port_uart_close, hd]
      | some d =>
        obtain ⟨s1, h1, h2⟩ := port_uart_close_result E s a d hd
        rw [h1]
        exact port_uart_close_closed E s1 a _ h2 rfl

/-- C7, on the open port 0 of `env_ok`: the close logs `sp_close` and `sp_free_port`,
keeps the slots, and a second close changes nothing. -/
theorem port_uart_close_frame_witness :
    (state_port0_open env_ok).deref 0 = some dev_port0 ∧ dev_port0.is_open = true ∧
    (∃ s1, port_uart_close env_ok (state_port0_open env_ok) (some 0) = some s1 ∧
      s1.log = (state_port0_open env_ok).log ++ [.sp_close 7, .sp_free_port 7] ∧
      s1.deref 0 = some { port := 7, port_name := some "COM1", is_open := false,
                          config := cfg_115200, id := 0 } ∧
      (∀ b, b ≠ 0 → s1.deref b = (state_port0_open env_ok).deref b) ∧
      s1.uart_devices = (state_port0_open env_ok).uart_devices) ∧
    (port_uart_close env_ok (state_port0_open env_ok) (some 0)).bind
        (fun s1 => port_uart_close env_ok s1 (some 0))
      = port_uart_close env_ok (state_port0_open env_ok) (some 0) :=
  ⟨by decide, rfl,
   (port_uart_close_frame env_ok (state_port0_open env_ok)).2.2.1 0 dev_port0
      (by decide) rfl,
   (port_uart_close_frame env_ok (state_port0_open env_ok)).2.2.2 (some 0)⟩


/-- C8. On every well-formed state `port_uart_deinit` returns, and `port_uart_init` after
it gives the table of process start, all `MAX_UART_PORTS` slots null; `port_uart_deinit`
alone already leaves every slot null.  `port_uart_init` alone gives that table, changes
nothing else, and is idempotent. -/
theorem deinit_init_restores (E : Env) (s : State) (hwf : s.wf E) :
    (∃ s1, port_uart_deinit E s = some s1 ∧
      s1.uart_devices = List.replicate (MAX_UART_PORTS E) none ∧
      (port_uart_init E s1).uart_devices = (State.start E).uart_devices) ∧
    port_uart_init E s = { s with uart_devices := (State.start E).uart_devices } ∧
    (State.start E).uart_devices = List.replicate (MAX_UART_PORTS E) none ∧
    port_uart_init E (port_uart_init E s) = port_uart_init E s := by
  have hinit : ∀ t : State, t.uart_devices.length = MAX_UART_PORTS E →
      port_uart_init E t = { t with uart_devices := (State.start E).uart_devices } :=
    fun t ht => port_uart_init_eq E t ht
  refine ⟨?_, hinit s hwf.1, rfl, ?_⟩
  · obtain ⟨s1, h1, hwf1, hnull, _⟩ := port_uart_deinit_loop E s hwf _ (le_refl _)
    refine ⟨s1, h1, ?_, ?_⟩
    · apply List.ext_get?
      intro j
      by_cases hj : j < MAX_UART_PORTS E
      · rw [hnull j hj]
        simp [hj]
      · rw [List.get?_eq_none.mpr (by rw [hwf1.1]; omega),
          List.get?_eq_none.mpr (by simp; omega)]
    · rw [hinit s1 hwf1.1]
  · rw [hinit s hwf.1, hinit _ (by simp [State.start])]


/-- C8, on a state with an open, a closed and a null slot. -/
theorem deinit_init_restores_witness :
    (∃ s1, port_uart_deinit env_ok state_mixed = some s1 ∧
      s1.uart_devices = List.replicate (MAX_UART_PORTS env_ok) none ∧
      (port_uart_init env_ok s1).uart_devices = (State.start env_ok).uart_devices) ∧
    port_uart_init env_ok state_mixed
      = { state_mixed with uart_devices := (State.start env_ok).uart_devices } ∧
    (State.start env_ok).uart_devices = List.replicate (MAX_UART_PORTS env_ok) none ∧
    port_uart_init env_ok (port_uart_init env_ok state_mixed)
      = port_uart_init env_ok state_mixed :=
  deinit_init_restores env_ok state_mixed state_mixed_wf


/-- C9. `hal_uart_byte_read` is the read of length 1 into the caller's byte and
`hal_uart_byte_write` is the write of length 1 from a buffer holding the byte, for every
state, device pointer and byte.  With a loopback that has nothing queued and an open
device, `hal_uart_byte_write` of `x` returns 1 and the following `hal_uart_byte_read`
returns 1 and stores `x` into the caller's byte. -/
theorem byte_io_refines (E : Env) (s : State) (dev : Option Nat) (c : Option (List Nat))
    (x : Nat) :
    hal_uart_byte_read E s dev c = port_uart_read E s dev c 1 ∧
    hal_uart_byte_write E s dev x = port_uart_write E s dev (some [x]) 1 ∧
    (∀ a d c0, s.deref a = some d → d.is_open = true → loopback_pending s.log = [] →
      ∃ s1 s2, hal_uart_byte_write (loopback E) s (some a) x = some (s1, 1) ∧
        hal_uart_byte_read (loopback E) s1 (some a) (some [c0]) = some (s2, 1, some [x])) := by
  refine ⟨rfl, rfl, ?_⟩
  intro a d c0 hd ho hq
  have hq1 : loopback_pending (s.log ++ [SpCall.sp_blocking_write d.port [x] 1 1000]) = [x] := by
    simp [loopback_pending, loopback_step] at hq ⊢
    simp [hq]
  refine ⟨s.call (.sp_blocking_write d.port [x] 1 1000),
    (s.call (.sp_blocking_write d.port [x] 1 1000)).call (.sp_blocking_read d.port 1 1000),
    ?_, ?_⟩
  · simp [hal_uart_byte_write, hal_uart_write, HAL_UART_DRIVER, port_uart_write, hd, ho,
      loopback]
  · have hd1 : (s.call (.sp_blocking_write d.port [x] 1 1000)).deref a = some d := hd
    have hl : (s.call (.sp_blocking_write d.port [x] 1 1000)).log
        = s.log ++ [SpCall.sp_blocking_write d.port [x] 1 1000] := rfl
    simp [hal_uart_byte_read, hal_uart_read, HAL_UART_DRIVER, port_uart_read, hd1, ho,
      loopback, hl, hq1]

/-- C9, on port 0 opened under the loopback of `env_ok`, with the byte 65. -/
theorem byte_io_refines_witness :
    (state_port0_open (loopback env_ok)).deref 0 = some dev_port0 ∧
    dev_port0.is_open = true ∧
    loopback_pending (state_port0_open (loopback env_ok)).log = [] ∧
    ∃ s1 s2,
      hal_uart_byte_write (loopback env_ok) (state_port0_open (loopback env_ok)) (some 0) 65
        = some (s1, 1) ∧
      hal_uart_byte_read (loopback env_ok) s1 (some 0) (some [0]) = some (s2, 1, some [65]) :=
  ⟨by decide, rfl, by decide,
   (byte_io_refines env_ok (state_port0_open (loopback env_ok)) (some 0) none 65).2.2
      0 dev_port0 0 (by decide) rfl (by decide)⟩

/-- C10 as stated fails: after two calls of `port_uart_open` on port 0 the records at
the addresses 0 and 1 are both live and open and both carry `id = 0`. -/
theorem open_twice_shares_id :
    Reachable env_ok state_port0_twice ∧
    state_port0_twice.deref 0 = some dev_port0 ∧
    state_port0_twice.deref 1 = some dev_port0 ∧
    dev_port0.is_open = true ∧ dev_port0.id = 0 ∧ (0 : Nat) ≠ 1 :=
  ⟨state_port0_twice_reachable, by decide, by decide, rfl, rfl, by decide⟩

/-- C10, amended. In every state reachable from `port_uart_init` by calls of
`port_uart_open`, `port_uart_close` and `port_uart_deinit`, the table has
`MAX_UART_PORTS` slots, every occupied slot `i` points to a live record whose `id` is
`i`, and two occupied slots whose records carry the same `id` are the same slot with the
same pointer: among the devices held in `uart_devices` there is at most one per id. -/
theorem registered_ids_unique (E : Env) (s : State) (h : Reachable E s) :
    s.uart_devices.length = MAX_UART_PORTS E ∧
    (∀ i a, s.uart_devices.get? i = some (some a) → ∃ d, s.deref a = some d ∧ d.id = i) ∧
    (∀ i j a b d e, s.uart_devices.get? i = some (some a) →
      s.uart_devices.get? j = some (some b) → s.deref a = some d → s.deref b = some e →
      d.id = e.id → i = j ∧ a = b) := by
  obtain ⟨hwf, hm⟩ := reachable_inv E s h
  refine ⟨hwf.1, hm, ?_⟩
  intro i j a b d e hi hj hd he hid
  obtain ⟨d1, hd1, hid1⟩ := hm i a hi
  obtain ⟨e1, he1, hid2⟩ := hm j b hj
  rw [hd] at hd1
  rw [he] at he1
  cases hd1
  cases he1
  have hij : i = j := by rw [← hid1, ← hid2, hid]
  subst hij
  rw [hi] at hj
  exact ⟨rfl, by simpa using hj⟩

/-- C10 amended, on the state after port 0 was opened twice: slot 0 holds the second
record only. -/
theorem registered_ids_unique_witness :
    state_port0_twice.uart_devices.length = MAX_UART_PORTS env_ok ∧
    (∀ i a, state_port0_twice.uart_devices.get? i = some (some a) →
      ∃ d, state_port0_twice.deref a = some d ∧ d.id = i) ∧
    (∀ i j a b d e, state_port0_twice.uart_devices.get? i = some (some a) →
      state_port0_twice.uart_devices.get? j = some (some b) →
      state_port0_twice.deref a = some d → state_port0_twice.deref b = some e →
      d.id = e.id → i = j ∧ a = b) :=
  registered_ids_unique env_ok state_port0_twice state_port0_twice_reachable

end PortUart
